import Mathlib

/-!
Verification of the cache admission/retention policy engine of the `moq`
relay: the `CacheDecision` primitive, the `AlwaysCachePolicy`,
`NeverCachePolicy` and `PatternBasedCachePolicy` variants
(`moq-lite/src/cache_policy.rs`, `moq-lite/src/cache_policy/pattern_based.rs`),
and the configuration builder `CachePolicyConfig::build`
(`moq-relay/src/cache_policy.rs`).

Rust integer types (`u8`, `u64`, `usize`) are embedded as `Nat`: the engine
only compares these values, never performs arithmetic on them, so no overflow
can occur and `Nat` is a faithful embedding. `Path` is a string wrapper whose
only use here is `as_str`, so it is embedded as `String`.
-/

namespace Moq

/-- A broadcast path: the source's `Path` type is an opaque string identifier
and the policy code only uses `path.as_str()`. -/
abbrev Path := String

/-! ## Glob patterns

`glob::Pattern` is an external crate, not part of this repository's sources.

Modelled from the spec: a compiled glob expression supports `*`, `**`, `?`
and character classes; `*` matches any run of characters within a path
segment (it does not cross `/`), `**` matches across segment boundaries,
`?` matches one character; compilation can fail on malformed glob syntax
(e.g. an unclosed character class), and such failure is the only failure
mode, surfaced at construction time. -/

/-- One token of a compiled glob pattern. -/
inductive GlobToken where
  | lit (c : Char)
  | anyChar
  | anySeq
  | anyRecursive
  | charClass (cs : List Char)
deriving DecidableEq

/-- Scan the body of a character class up to the closing `]`, returning the
class members and the remaining input; `none` if the class is unclosed. -/
def scanClass : List Char → Option (List Char × List Char)
  | [] => none
  | c :: rest =>
    if c = ']' then some ([], rest)
    else
      match scanClass rest with
      | none => none
      | some (cs, r) => some (c :: cs, r)

/-- Fuel-indexed glob compiler (the fuel is only a structural-termination
device; `compileFuel n l` is fully defined whenever `l.length ≤ n`). -/
def compileFuel : Nat → List Char → Option (List GlobToken)
  | _, [] => some []
  | 0, _ :: _ => none
  | n + 1, '*' :: '*' :: rest => (compileFuel n rest).map (GlobToken.anyRecursive :: ·)
  | n + 1, '*' :: rest => (compileFuel n rest).map (GlobToken.anySeq :: ·)
  | n + 1, '?' :: rest => (compileFuel n rest).map (GlobToken.anyChar :: ·)
  | n + 1, '[' :: rest =>
    match scanClass rest with
    | none => none
    | some (cs, r) => (compileFuel n r).map (GlobToken.charClass cs :: ·)
  | n + 1, c :: rest => (compileFuel n rest).map (GlobToken.lit c :: ·)

/-- A compiled glob pattern, mirroring `glob::Pattern`. -/
structure Pattern where
  tokens : List GlobToken
deriving DecidableEq

/-- Source `Pattern::new`: compile a glob string, failing on malformed syntax. -/
def Pattern.new (s : String) : Option Pattern :=
  (compileFuel s.data.length s.data).map Pattern.mk

/-- Whether a single non-wildcard token matches one character. -/
def tokenMatchesChar : GlobToken → Char → Bool
  | GlobToken.lit c, d => c = d
  | GlobToken.anyChar, _ => true
  | GlobToken.charClass cs, d => cs.contains d
  | GlobToken.anySeq, _ => false
  | GlobToken.anyRecursive, _ => false

/-- Fuel-indexed glob matcher: `anySeq` consumes any run of non-separator
characters, `anyRecursive` consumes any run of characters. The fuel is a
structural-termination device; `tokens.length + input.length` fuel always
suffices. -/
def globMatchFuel : Nat → List GlobToken → List Char → Bool
  | _, [], [] => true
  | _, [], _ :: _ => false
  | 0, _ :: _, _ => false
  | f + 1, GlobToken.anySeq :: ts, [] => globMatchFuel f ts []
  | f + 1, GlobToken.anySeq :: ts, c :: cs =>
    globMatchFuel f ts (c :: cs) || (decide (c ≠ '/') && globMatchFuel f (GlobToken.anySeq :: ts) cs)
  | f + 1, GlobToken.anyRecursive :: ts, [] => globMatchFuel f ts []
  | f + 1, GlobToken.anyRecursive :: ts, c :: cs =>
    globMatchFuel f ts (c :: cs) || globMatchFuel f (GlobToken.anyRecursive :: ts) cs
  | _ + 1, _ :: _, [] => false
  | f + 1, t :: ts, c :: cs => tokenMatchesChar t c && globMatchFuel f ts cs

/-- Source `Pattern::matches`: whether the pattern matches the whole string. -/
def Pattern.matches (p : Pattern) (s : String) : Bool :=
  globMatchFuel (p.tokens.length + s.data.length) p.tokens s.data

/-! ## Decision primitive (`moq-lite/src/cache_policy.rs`) -/

/-- Decision on whether to cache an item. -/
inductive CacheDecision where
  | Cache
  | NoCache
deriving DecidableEq

/-- Source `CacheDecision::should_cache`. -/
def CacheDecision.should_cache : CacheDecision → Bool
  | CacheDecision.Cache => true
  | CacheDecision.NoCache => false

/-! ## Pattern-based policy (`moq-lite/src/cache_policy/pattern_based.rs`) -/

/-- Source `PatternBasedCachePolicy`: pattern-based cache policy with configurable
rules. -/
structure PatternBasedCachePolicy where
  cache_patterns : List Pattern
  exclude_patterns : List Pattern
  min_track_priority : Nat
  backup_max_age_seconds : Nat
  backup_max_count : Nat
  max_groups_per_track : Nat
  max_frames_per_group : Nat
  max_frame_size_bytes : Nat
deriving DecidableEq

/-- The compiled form of the `"**"` pattern
(`Pattern::new("**").expect("valid pattern")` in the source's `Default`). -/
def globAll : Pattern := Pattern.mk [GlobToken.anyRecursive]

/-- Source `Default for PatternBasedCachePolicy`. -/
def PatternBasedCachePolicy.defaultPolicy : PatternBasedCachePolicy :=
  { cache_patterns := [globAll]
    exclude_patterns := []
    min_track_priority := 0
    backup_max_age_seconds := 0
    backup_max_count := 0
    max_groups_per_track := 1
    max_frames_per_group := 0
    max_frame_size_bytes := 0 }

/-- Source `PatternBasedCachePolicy::new`. -/
def PatternBasedCachePolicy.new : PatternBasedCachePolicy :=
  PatternBasedCachePolicy.defaultPolicy

/-- Source expression
`patterns.into_iter().map(|p| Pattern::new(&p)).collect::<Result<Vec<_>, _>>()`:
compile every pattern string, failing if any fails. -/
def compileAll : List String → Option (List Pattern)
  | [] => some []
  | s :: rest =>
    match Pattern.new s, compileAll rest with
    | some p, some ps => some (p :: ps)
    | _, _ => none

/-- Source `PatternBasedCachePolicy::with_cache_patterns`. -/
def PatternBasedCachePolicy.with_cache_patterns (pol : PatternBasedCachePolicy)
    (patterns : List String) : Option PatternBasedCachePolicy :=
  (compileAll patterns).map fun ps => { pol with cache_patterns := ps }

/-- Source `PatternBasedCachePolicy::with_exclude_patterns`. -/
def PatternBasedCachePolicy.with_exclude_patterns (pol : PatternBasedCachePolicy)
    (patterns : List String) : Option PatternBasedCachePolicy :=
  (compileAll patterns).map fun ps => { pol with exclude_patterns := ps }

/-- Source `PatternBasedCachePolicy::with_min_track_priority`. -/
def PatternBasedCachePolicy.with_min_track_priority (pol : PatternBasedCachePolicy)
    (priority : Nat) : PatternBasedCachePolicy :=
  { pol with min_track_priority := priority }

/-- Source `PatternBasedCachePolicy::with_backup_max_age`. -/
def PatternBasedCachePolicy.with_backup_max_age (pol : PatternBasedCachePolicy)
    (seconds : Nat) : PatternBasedCachePolicy :=
  { pol with backup_max_age_seconds := seconds }

/-- Source `PatternBasedCachePolicy::with_backup_max_count`. -/
def PatternBasedCachePolicy.with_backup_max_count (pol : PatternBasedCachePolicy)
    (count : Nat) : PatternBasedCachePolicy :=
  { pol with backup_max_count := count }

/-- Source `PatternBasedCachePolicy::with_max_groups_per_track`. -/
def PatternBasedCachePolicy.with_max_groups_per_track (pol : PatternBasedCachePolicy)
    (max : Nat) : PatternBasedCachePolicy :=
  { pol with max_groups_per_track := max }

/-- Source `PatternBasedCachePolicy::with_max_frames_per_group`. -/
def PatternBasedCachePolicy.with_max_frames_per_group (pol : PatternBasedCachePolicy)
    (max : Nat) : PatternBasedCachePolicy :=
  { pol with max_frames_per_group := max }

/-- Source `PatternBasedCachePolicy::with_max_frame_size`. -/
def PatternBasedCachePolicy.with_max_frame_size (pol : PatternBasedCachePolicy)
    (bytes : Nat) : PatternBasedCachePolicy :=
  { pol with max_frame_size_bytes := bytes }

/-- Source `PatternBasedCachePolicy::matches_patterns`: check if a path matches any
of the patterns. -/
def matches_patterns (path : String) (patterns : List Pattern) : Bool :=
  patterns.any fun p => Pattern.matches p path

/-- Source `PatternBasedCachePolicy::should_cache_broadcast`. -/
def PatternBasedCachePolicy.should_cache_broadcast (pol : PatternBasedCachePolicy)
    (path : Path) : CacheDecision :=
  if !pol.exclude_patterns.isEmpty && matches_patterns path pol.exclude_patterns then
    CacheDecision.NoCache
  else if matches_patterns path pol.cache_patterns then
    CacheDecision.Cache
  else
    CacheDecision.NoCache

/-- Source `PatternBasedCachePolicy::should_cache_track`. -/
def PatternBasedCachePolicy.should_cache_track (pol : PatternBasedCachePolicy)
    (broadcast_path : Path) (_track_name : String) (priority : Nat) : CacheDecision :=
  if !(pol.should_cache_broadcast broadcast_path).should_cache then
    CacheDecision.NoCache
  else if priority ≥ pol.min_track_priority then
    CacheDecision.Cache
  else
    CacheDecision.NoCache

/-- Source `PatternBasedCachePolicy::should_cache_group` (group-count limits are
enforced at insertion time by the caller, not here; the source's
`max_frames_per_group` branch has an empty body). -/
def PatternBasedCachePolicy.should_cache_group (pol : PatternBasedCachePolicy)
    (_sequence : Nat) (estimated_size : Option Nat) : CacheDecision :=
  match estimated_size with
  | some size =>
    if pol.max_frame_size_bytes > 0 && size > pol.max_frame_size_bytes then
      CacheDecision.NoCache
    else
      CacheDecision.Cache
  | none => CacheDecision.Cache

/-- Source `PatternBasedCachePolicy::should_cache_frame`. -/
def PatternBasedCachePolicy.should_cache_frame (pol : PatternBasedCachePolicy)
    (frame_size : Nat) : CacheDecision :=
  if pol.max_frame_size_bytes > 0 && frame_size > pol.max_frame_size_bytes then
    CacheDecision.NoCache
  else
    CacheDecision.Cache

/-- Source `PatternBasedCachePolicy::should_keep_backup`. -/
def PatternBasedCachePolicy.should_keep_backup (pol : PatternBasedCachePolicy)
    (age_seconds : Nat) (backup_count : Nat) : Bool :=
  if pol.backup_max_age_seconds > 0 && age_seconds ≥ pol.backup_max_age_seconds then
    false
  else if pol.backup_max_count > 0 && backup_count > pol.backup_max_count then
    false
  else
    true

/-! ## Constant policy variants (`moq-lite/src/cache_policy.rs`) -/

/-- Source `AlwaysCachePolicy::should_cache_broadcast`. -/
def AlwaysCachePolicy.should_cache_broadcast (_path : Path) : CacheDecision :=
  CacheDecision.Cache

/-- Source `AlwaysCachePolicy::should_cache_track`. -/
def AlwaysCachePolicy.should_cache_track (_broadcast_path : Path) (_track_name : String)
    (_priority : Nat) : CacheDecision :=
  CacheDecision.Cache

/-- Source `AlwaysCachePolicy::should_cache_group`. -/
def AlwaysCachePolicy.should_cache_group (_sequence : Nat)
    (_estimated_size : Option Nat) : CacheDecision :=
  CacheDecision.Cache

/-- Source `AlwaysCachePolicy::should_cache_frame`. -/
def AlwaysCachePolicy.should_cache_frame (_frame_size : Nat) : CacheDecision :=
  CacheDecision.Cache

/-- Source `AlwaysCachePolicy::should_keep_backup`. -/
def AlwaysCachePolicy.should_keep_backup (_age_seconds : Nat) (_backup_count : Nat) : Bool :=
  true

/-- Source `NeverCachePolicy::should_cache_broadcast`. -/
def NeverCachePolicy.should_cache_broadcast (_path : Path) : CacheDecision :=
  CacheDecision.NoCache

/-- Source `NeverCachePolicy::should_cache_track`. -/
def NeverCachePolicy.should_cache_track (_broadcast_path : Path) (_track_name : String)
    (_priority : Nat) : CacheDecision :=
  CacheDecision.NoCache

/-- Source `NeverCachePolicy::should_cache_group`. -/
def NeverCachePolicy.should_cache_group (_sequence : Nat)
    (_estimated_size : Option Nat) : CacheDecision :=
  CacheDecision.NoCache

/-- Source `NeverCachePolicy::should_cache_frame`. -/
def NeverCachePolicy.should_cache_frame (_frame_size : Nat) : CacheDecision :=
  CacheDecision.NoCache

/-- Source `NeverCachePolicy::should_keep_backup`. -/
def NeverCachePolicy.should_keep_backup (_age_seconds : Nat) (_backup_count : Nat) : Bool :=
  false

/-! ## Built policy: the trait object returned by the builder -/

/-- The dynamic policy value `Arc<dyn CachePolicy>` returned by
`CachePolicyConfig::build`, as a tagged union over the three variants the
builder can construct. -/
inductive BuiltPolicy where
  | never
  | always
  | patternBased (pol : PatternBasedCachePolicy)
deriving DecidableEq

/-- Dynamic dispatch of `should_cache_broadcast`. -/
def BuiltPolicy.should_cache_broadcast : BuiltPolicy → Path → CacheDecision
  | BuiltPolicy.never, path => NeverCachePolicy.should_cache_broadcast path
  | BuiltPolicy.always, path => AlwaysCachePolicy.should_cache_broadcast path
  | BuiltPolicy.patternBased pol, path => pol.should_cache_broadcast path

/-- Dynamic dispatch of `should_cache_track`. -/
def BuiltPolicy.should_cache_track : BuiltPolicy → Path → String → Nat → CacheDecision
  | BuiltPolicy.never, path, name, prio => NeverCachePolicy.should_cache_track path name prio
  | BuiltPolicy.always, path, name, prio => AlwaysCachePolicy.should_cache_track path name prio
  | BuiltPolicy.patternBased pol, path, name, prio => pol.should_cache_track path name prio

/-- Dynamic dispatch of `should_cache_group`. -/
def BuiltPolicy.should_cache_group : BuiltPolicy → Nat → Option Nat → CacheDecision
  | BuiltPolicy.never, seq, sz => NeverCachePolicy.should_cache_group seq sz
  | BuiltPolicy.always, seq, sz => AlwaysCachePolicy.should_cache_group seq sz
  | BuiltPolicy.patternBased pol, seq, sz => pol.should_cache_group seq sz

/-- Dynamic dispatch of `should_cache_frame`. -/
def BuiltPolicy.should_cache_frame : BuiltPolicy → Nat → CacheDecision
  | BuiltPolicy.never, sz => NeverCachePolicy.should_cache_frame sz
  | BuiltPolicy.always, sz => AlwaysCachePolicy.should_cache_frame sz
  | BuiltPolicy.patternBased pol, sz => pol.should_cache_frame sz

/-- Dynamic dispatch of `should_keep_backup`. -/
def BuiltPolicy.should_keep_backup : BuiltPolicy → Nat → Nat → Bool
  | BuiltPolicy.never, age, cnt => NeverCachePolicy.should_keep_backup age cnt
  | BuiltPolicy.always, age, cnt => AlwaysCachePolicy.should_keep_backup age cnt
  | BuiltPolicy.patternBased pol, age, cnt => pol.should_keep_backup age cnt

/-! ## Relay configuration (`moq-relay/src/cache_policy.rs`) -/

/-- Source `BroadcastCachePolicy` configuration section. -/
structure BroadcastCachePolicy where
  cache_patterns : List String
  exclude_patterns : List String
  backup_max_age_seconds : Nat
  backup_max_count : Nat
deriving DecidableEq

/-- Source `Default for BroadcastCachePolicy`. -/
def BroadcastCachePolicy.defaultConfig : BroadcastCachePolicy :=
  { cache_patterns := ["**"]
    exclude_patterns := []
    backup_max_age_seconds := 0
    backup_max_count := 0 }

/-- Source `TrackCachePolicy` configuration section. -/
structure TrackCachePolicy where
  max_tracks_per_broadcast : Nat
  min_priority : Nat
deriving DecidableEq

/-- Source `Default for TrackCachePolicy`. -/
def TrackCachePolicy.defaultConfig : TrackCachePolicy :=
  { max_tracks_per_broadcast := 0
    min_priority := 0 }

/-- Source `GroupCachePolicy` configuration section. -/
structure GroupCachePolicy where
  max_groups_per_track : Nat
  max_frames_per_group : Nat
deriving DecidableEq

/-- Source `Default for GroupCachePolicy`. -/
def GroupCachePolicy.defaultConfig : GroupCachePolicy :=
  { max_groups_per_track := 1
    max_frames_per_group := 0 }

/-- Source `CacheLimits` configuration section. -/
structure CacheLimits where
  max_cache_size_bytes : Nat
  max_broadcast_size_bytes : Nat
  max_frame_size_bytes : Nat
deriving DecidableEq

/-- Source `Default for CacheLimits`. -/
def CacheLimits.defaultConfig : CacheLimits :=
  { max_cache_size_bytes := 0
    max_broadcast_size_bytes := 0
    max_frame_size_bytes := 0 }

/-- Source `CachePolicyConfig`: cache policy configuration for the relay. -/
structure CachePolicyConfig where
  cache_enabled : Bool
  broadcast : BroadcastCachePolicy
  track : TrackCachePolicy
  group : GroupCachePolicy
  limits : CacheLimits
deriving DecidableEq

/-- Source `Default for CachePolicyConfig`. -/
def CachePolicyConfig.defaultConfig : CachePolicyConfig :=
  { cache_enabled := true
    broadcast := BroadcastCachePolicy.defaultConfig
    track := TrackCachePolicy.defaultConfig
    group := GroupCachePolicy.defaultConfig
    limits := CacheLimits.defaultConfig }

/-- Source `CachePolicyConfig::build`: create a cache policy implementation from this
configuration (`none` embeds the `Err` case of pattern-compilation failure). -/
def CachePolicyConfig.build (c : CachePolicyConfig) : Option BuiltPolicy :=
  if !c.cache_enabled then some BuiltPolicy.never
  else if c.broadcast.cache_patterns = ["**"] ∧ c.broadcast.exclude_patterns = [] ∧
      c.track.min_priority = 0 ∧ c.broadcast.backup_max_age_seconds = 0 ∧
      c.broadcast.backup_max_count = 0 ∧ c.limits.max_frame_size_bytes = 0 then
    some BuiltPolicy.always
  else
    match PatternBasedCachePolicy.new.with_cache_patterns c.broadcast.cache_patterns with
    | none => none
    | some p1 =>
      match p1.with_exclude_patterns c.broadcast.exclude_patterns with
      | none => none
      | some p2 =>
        some (BuiltPolicy.patternBased
          ((((((p2.with_min_track_priority c.track.min_priority).with_backup_max_age
            c.broadcast.backup_max_age_seconds).with_backup_max_count
            c.broadcast.backup_max_count).with_max_groups_per_track
            c.group.max_groups_per_track).with_max_frames_per_group
            c.group.max_frames_per_group).with_max_frame_size
            c.limits.max_frame_size_bytes))

/-! ## Sample policies and configurations used by witnesses -/

/-- Compiled form of `"live/**"`. -/
def pLive : Pattern :=
  Pattern.mk [GlobToken.lit 'l', GlobToken.lit 'i', GlobToken.lit 'v', GlobToken.lit 'e',
    GlobToken.lit '/', GlobToken.anyRecursive]

/-- Compiled form of `"vod/**"`. -/
def pVod : Pattern :=
  Pattern.mk [GlobToken.lit 'v', GlobToken.lit 'o', GlobToken.lit 'd',
    GlobToken.lit '/', GlobToken.anyRecursive]

/-- Compiled form of `"live/secret/**"`. -/
def pSecret : Pattern :=
  Pattern.mk [GlobToken.lit 'l', GlobToken.lit 'i', GlobToken.lit 'v', GlobToken.lit 'e',
    GlobToken.lit '/', GlobToken.lit 's', GlobToken.lit 'e', GlobToken.lit 'c',
    GlobToken.lit 'r', GlobToken.lit 'e', GlobToken.lit 't', GlobToken.lit '/',
    GlobToken.anyRecursive]

/-- A pattern-based policy caching `live/**` and `vod/**`, excluding
`live/secret/**`. -/
def polA : PatternBasedCachePolicy :=
  { PatternBasedCachePolicy.defaultPolicy with
    cache_patterns := [pLive, pVod]
    exclude_patterns := [pSecret] }

/-- Policy `polA` with its include patterns listed in the opposite order. -/
def polB : PatternBasedCachePolicy :=
  { PatternBasedCachePolicy.defaultPolicy with
    cache_patterns := [pVod, pLive]
    exclude_patterns := [pSecret] }

/-- A pattern-based policy with an empty include-pattern set. -/
def polNone : PatternBasedCachePolicy :=
  { PatternBasedCachePolicy.defaultPolicy with cache_patterns := [] }

/-- A pattern-based policy with `min_track_priority = 128`. -/
def polPrio : PatternBasedCachePolicy :=
  { PatternBasedCachePolicy.defaultPolicy with min_track_priority := 128 }

/-- Default configuration with caching disabled. -/
def cfgDisabled : CachePolicyConfig :=
  { CachePolicyConfig.defaultConfig with cache_enabled := false }

/-- Default configuration with the include patterns replaced by `["live/**"]`. -/
def cfgLive : CachePolicyConfig :=
  { CachePolicyConfig.defaultConfig with
    broadcast := { BroadcastCachePolicy.defaultConfig with cache_patterns := ["live/**"] } }

/-- A disabled configuration containing a malformed glob pattern. -/
def cfgBadDisabled : CachePolicyConfig :=
  { CachePolicyConfig.defaultConfig with
    cache_enabled := false
    broadcast := { BroadcastCachePolicy.defaultConfig with cache_patterns := ["["] } }

/-- An enabled configuration containing a malformed glob pattern. -/
def cfgBadEnabled : CachePolicyConfig :=
  { CachePolicyConfig.defaultConfig with
    broadcast := { BroadcastCachePolicy.defaultConfig with cache_patterns := ["["] } }

/-- Observational equivalence of two built policies: every one of the five
queries returns the same result on every input. -/
def queryEquiv (a b : BuiltPolicy) : Prop :=
  ∀ (path : Path) (track_name : String) (priority sequence : Nat)
    (estimated_size : Option Nat) (frame_size age_seconds backup_count : Nat),
    a.should_cache_broadcast path = b.should_cache_broadcast path
    ∧ a.should_cache_track path track_name priority
        = b.should_cache_track path track_name priority
    ∧ a.should_cache_group sequence estimated_size
        = b.should_cache_group sequence estimated_size
    ∧ a.should_cache_frame frame_size = b.should_cache_frame frame_size
    ∧ a.should_keep_backup age_seconds backup_count
        = b.should_keep_backup age_seconds backup_count

/-- Observational equivalence of two build results: both fail, or both
succeed with query-equivalent policies. -/
def buildEquiv : Option BuiltPolicy → Option BuiltPolicy → Prop
  | none, none => True
  | some a, some b => queryEquiv a b
  | _, _ => False

/-- Default configuration with non-default informational fields (group and
global-size limits). -/
def cfgInfo : CachePolicyConfig :=
  { CachePolicyConfig.defaultConfig with
    track := { TrackCachePolicy.defaultConfig with max_tracks_per_broadcast := 10 }
    group := { max_groups_per_track := 7, max_frames_per_group := 100 }
    limits := { CacheLimits.defaultConfig with
      max_cache_size_bytes := 1000000
      max_broadcast_size_bytes := 5000 } }

theorem Pattern.new_doubleStar : Pattern.new "**" = some globAll := rfl

/-! ## Helper lemmas -/

theorem any_perm {α : Type} {l₁ l₂ : List α} (h : l₁.Perm l₂) (f : α → Bool) :
    l₁.any f = l₂.any f := by
  rw [Bool.eq_iff_iff]
  simp only [List.any_eq_true]
  constructor
  · rintro ⟨x, hx, hfx⟩
    exact ⟨x, h.mem_iff.mp hx, hfx⟩
  · rintro ⟨x, hx, hfx⟩
    exact ⟨x, h.mem_iff.mpr hx, hfx⟩

theorem isEmpty_perm {α : Type} {l₁ l₂ : List α} (h : l₁.Perm l₂) :
    l₁.isEmpty = l₂.isEmpty := by
  cases l₁ <;> cases l₂ <;> simp_all

/-! ## Claims -/

/-- C1: for every pattern-based policy and path, `should_cache_broadcast`
returns `NoCache` when the exclude set is non-empty and the path matches some
exclude pattern (regardless of include matches); otherwise `Cache` iff the
path matches some include pattern; membership is any-of within each set, so
permuting either pattern set leaves the outcome unchanged. -/
theorem C1_broadcast_decision (pol pol' : PatternBasedCachePolicy) (path : Path)
    (hc : pol'.cache_patterns.Perm pol.cache_patterns)
    (he : pol'.exclude_patterns.Perm pol.exclude_patterns) :
    (pol.should_cache_broadcast path =
      if pol.exclude_patterns ≠ [] ∧ ∃ p ∈ pol.exclude_patterns, Pattern.matches p path then
        CacheDecision.NoCache
      else if ∃ p ∈ pol.cache_patterns, Pattern.matches p path then
        CacheDecision.Cache
      else
        CacheDecision.NoCache)
    ∧ pol'.should_cache_broadcast path = pol.should_cache_broadcast path := by
  constructor
  · by_cases hemp : pol.exclude_patterns = []
    · simp [PatternBasedCachePolicy.should_cache_broadcast, matches_patterns, hemp,
        List.any_eq_true]
    · by_cases hex : ∃ p ∈ pol.exclude_patterns, Pattern.matches p path
      · simp [PatternBasedCachePolicy.should_cache_broadcast, matches_patterns, hemp, hex,
          List.any_eq_true, List.isEmpty_iff]
      · simp [PatternBasedCachePolicy.should_cache_broadcast, matches_patterns, hemp, hex,
          List.any_eq_true, List.isEmpty_iff]
  · simp only [PatternBasedCachePolicy.should_cache_broadcast, matches_patterns]
    simp only [any_perm he, any_perm hc, isEmpty_perm he]

/-- C2: containment invariant — a `NoCache` broadcast decision forces
`NoCache` for every track of that broadcast, whatever the name and
priority. -/
theorem C2_track_containment (pol : PatternBasedCachePolicy) (p : Path)
    (track_name : String) (priority : Nat)
    (h : pol.should_cache_broadcast p = CacheDecision.NoCache) :
    pol.should_cache_track p track_name priority = CacheDecision.NoCache := by
  simp [PatternBasedCachePolicy.should_cache_track, h, CacheDecision.should_cache]

theorem C1_broadcast_decision_witness :
    polA.should_cache_broadcast "live/secret/x" = CacheDecision.NoCache
    ∧ polB.should_cache_broadcast "live/secret/x"
        = polA.should_cache_broadcast "live/secret/x" := by
  have h := C1_broadcast_decision polA polB "live/secret/x"
    (List.Perm.swap pVod pLive []).symm (List.Perm.refl [pSecret])
  refine ⟨?_, h.2⟩
  rw [h.1]
  decide

theorem C2_track_containment_witness :
    polNone.should_cache_track "live/x" "video" 200 = CacheDecision.NoCache :=
  C2_track_containment polNone "live/x" "video" 200 (by decide)

theorem globMatchFuel_anyRecursive (f : Nat) (cs : List Char) (h : cs.length < f) :
    globMatchFuel f [GlobToken.anyRecursive] cs = true := by
  induction cs generalizing f with
  | nil =>
    cases f with
    | zero => omega
    | succ f => simp [globMatchFuel]
  | cons c cs ih =>
    cases f with
    | zero => omega
    | succ f =>
      simp only [globMatchFuel, Bool.or_eq_true]
      right
      exact ih f (by simpa using Nat.lt_of_succ_lt_succ (by simpa using h))

/-- The compiled `"**"` pattern matches every string. -/
theorem globAll_matches (s : String) : Pattern.matches globAll s = true := by
  apply globMatchFuel_anyRecursive
  simp [globAll]

/-- C5: `should_keep_backup` evicts (returns `false`) exactly when a non-zero
age limit has been reached (inclusive) or a non-zero count limit has been
strictly exceeded; a zero limit never evicts. -/
theorem C5_backup_retention (pol : PatternBasedCachePolicy)
    (age_seconds backup_count : Nat) :
    pol.should_keep_backup age_seconds backup_count = false ↔
      (pol.backup_max_age_seconds ≠ 0 ∧ pol.backup_max_age_seconds ≤ age_seconds)
      ∨ (pol.backup_max_count ≠ 0 ∧ pol.backup_max_count < backup_count) := by
  simp only [PatternBasedCachePolicy.should_keep_backup, Bool.and_eq_true,
    decide_eq_true_eq, gt_iff_lt, ge_iff_le]
  split
  · simp_all
    omega
  · split
    · simp_all
      omega
    · simp_all
      omega

/-- C6: on a broadcast whose decision is `Cache`, a track caches exactly when
its priority is at least `min_track_priority` (inclusive bound), and the
track name has no effect on the decision. -/
theorem C6_track_priority (pol : PatternBasedCachePolicy) (path : Path)
    (name name' : String) (priority : Nat)
    (h : pol.should_cache_broadcast path = CacheDecision.Cache) :
    (pol.should_cache_track path name priority = CacheDecision.Cache ↔
      pol.min_track_priority ≤ priority)
    ∧ pol.should_cache_track path name priority
        = pol.should_cache_track path name' priority := by
  refine ⟨?_, rfl⟩
  simp only [PatternBasedCachePolicy.should_cache_track, h, CacheDecision.should_cache,
    Bool.not_true, Bool.false_eq_true, if_false, ge_iff_le]
  split <;> simp_all

/-- C7: `should_cache_frame` returns `NoCache` exactly when the frame-size
limit is non-zero and the frame strictly exceeds it (equal to the limit still
caches, zero limit means unlimited), and `Cache` otherwise. -/
theorem C7_frame_size (pol : PatternBasedCachePolicy) (frame_size : Nat) :
    (pol.should_cache_frame frame_size = CacheDecision.NoCache ↔
      pol.max_frame_size_bytes ≠ 0 ∧ pol.max_frame_size_bytes < frame_size)
    ∧ (pol.should_cache_frame frame_size = CacheDecision.Cache ↔
      ¬(pol.max_frame_size_bytes ≠ 0 ∧ pol.max_frame_size_bytes < frame_size)) := by
  constructor <;>
  · simp only [PatternBasedCachePolicy.should_cache_frame, Bool.and_eq_true,
      decide_eq_true_eq, gt_iff_lt]
    split <;> simp_all <;> omega

/-- C8: `should_cache_group` returns `NoCache` exactly when an estimated size
is present, the frame-size limit is non-zero, and the size strictly exceeds
the limit; in every other case (including absent size) it returns `Cache`;
the sequence number has no effect on the decision. -/
theorem C8_group_size (pol : PatternBasedCachePolicy) (sequence sequence' : Nat)
    (estimated_size : Option Nat) :
    (pol.should_cache_group sequence estimated_size = CacheDecision.NoCache ↔
      ∃ size, estimated_size = some size ∧ pol.max_frame_size_bytes ≠ 0 ∧
        pol.max_frame_size_bytes < size)
    ∧ (pol.should_cache_group sequence estimated_size = CacheDecision.Cache ↔
      ¬∃ size, estimated_size = some size ∧ pol.max_frame_size_bytes ≠ 0 ∧
        pol.max_frame_size_bytes < size)
    ∧ pol.should_cache_group sequence estimated_size
        = pol.should_cache_group sequence' estimated_size := by
  refine ⟨?_, ?_, rfl⟩ <;>
  · cases estimated_size with
    | none => simp [PatternBasedCachePolicy.should_cache_group]
    | some size =>
      simp only [PatternBasedCachePolicy.should_cache_group, Bool.and_eq_true,
        decide_eq_true_eq, gt_iff_lt, Option.some.injEq]
      split <;> simp_all <;> omega

/-- C4: `AlwaysCachePolicy` returns the same decision as the pattern-based
variant built from the default configuration (include pattern `"**"`, empty
exclude set, all limits zero) on every input of each of the five queries. -/
theorem C4_always_refines_default (path : Path) (track_name : String)
    (priority sequence : Nat) (estimated_size : Option Nat)
    (frame_size age_seconds backup_count : Nat) :
    AlwaysCachePolicy.should_cache_broadcast path
        = PatternBasedCachePolicy.defaultPolicy.should_cache_broadcast path
    ∧ AlwaysCachePolicy.should_cache_track path track_name priority
        = PatternBasedCachePolicy.defaultPolicy.should_cache_track path track_name priority
    ∧ AlwaysCachePolicy.should_cache_group sequence estimated_size
        = PatternBasedCachePolicy.defaultPolicy.should_cache_group sequence estimated_size
    ∧ AlwaysCachePolicy.should_cache_frame frame_size
        = PatternBasedCachePolicy.defaultPolicy.should_cache_frame frame_size
    ∧ AlwaysCachePolicy.should_keep_backup age_seconds backup_count
        = PatternBasedCachePolicy.defaultPolicy.should_keep_backup age_seconds backup_count := by
  have hb : PatternBasedCachePolicy.defaultPolicy.should_cache_broadcast path
      = CacheDecision.Cache := by
    simp [PatternBasedCachePolicy.should_cache_broadcast,
      PatternBasedCachePolicy.defaultPolicy, matches_patterns, globAll_matches]
  refine ⟨hb.symm, ?_, ?_, ?_, ?_⟩
  · simp only [PatternBasedCachePolicy.defaultPolicy] at hb
    simp [PatternBasedCachePolicy.should_cache_track, hb, CacheDecision.should_cache,
      AlwaysCachePolicy.should_cache_track, PatternBasedCachePolicy.defaultPolicy]
  · cases estimated_size <;>
      simp [PatternBasedCachePolicy.should_cache_group,
        AlwaysCachePolicy.should_cache_group, PatternBasedCachePolicy.defaultPolicy]
  · simp [PatternBasedCachePolicy.should_cache_frame,
      AlwaysCachePolicy.should_cache_frame, PatternBasedCachePolicy.defaultPolicy]
  · simp [PatternBasedCachePolicy.should_keep_backup,
      AlwaysCachePolicy.should_keep_backup, PatternBasedCachePolicy.defaultPolicy]

theorem C6_track_priority_witness :
    polPrio.should_cache_track "live/x" "video" 128 = CacheDecision.Cache
    ∧ polPrio.should_cache_track "live/x" "video" 128
        = polPrio.should_cache_track "live/x" "audio" 128 := by
  have h := C6_track_priority polPrio "live/x" "video" "audio" 128 (by decide)
  exact ⟨h.1.mpr (by decide), h.2⟩

theorem compileAll_eq_none_iff (l : List String) :
    compileAll l = none ↔ ∃ s ∈ l, Pattern.new s = none := by
  induction l with
  | nil => simp [compileAll]
  | cons s rest ih =>
    simp only [compileAll]
    cases h : Pattern.new s with
    | none =>
      simp only []
      exact iff_of_true trivial ⟨s, List.mem_cons_self s rest, h⟩
    | some p =>
      cases h2 : compileAll rest with
      | none =>
        simp only []
        obtain ⟨t, ht, hf⟩ := ih.mp h2
        exact iff_of_true trivial ⟨t, List.mem_cons_of_mem s ht, hf⟩
      | some ps =>
        simp only []
        refine iff_of_false (by simp) ?_
        rintro ⟨t, ht, hf⟩
        rcases List.mem_cons.mp ht with rfl | ht
        · rw [h] at hf
          cases hf
        · exact (Option.some_ne_none ps) (h2 ▸ (ih.mpr ⟨t, ht, hf⟩))

/-- C3: builder dispatch — `build` returns the never-cache variant when
caching is disabled; when enabled it returns the always-cache variant exactly
when the configuration is the default (include patterns `["**"]`, empty
excludes, zero min priority, zero backup age/count, zero max frame size); in
every other enabled case, when every pattern compiles, it constructs the
pattern-based variant with all thresholds copied verbatim from the
configuration. -/
theorem C3_build_dispatch (c : CachePolicyConfig) (cp ep : List Pattern) :
    (c.cache_enabled = false → c.build = some BuiltPolicy.never)
    ∧ (c.build = some BuiltPolicy.always ↔
        c.cache_enabled = true
        ∧ (c.broadcast.cache_patterns = ["**"] ∧ c.broadcast.exclude_patterns = []
          ∧ c.track.min_priority = 0 ∧ c.broadcast.backup_max_age_seconds = 0
          ∧ c.broadcast.backup_max_count = 0 ∧ c.limits.max_frame_size_bytes = 0))
    ∧ (c.cache_enabled = true →
        ¬(c.broadcast.cache_patterns = ["**"] ∧ c.broadcast.exclude_patterns = []
          ∧ c.track.min_priority = 0 ∧ c.broadcast.backup_max_age_seconds = 0
          ∧ c.broadcast.backup_max_count = 0 ∧ c.limits.max_frame_size_bytes = 0) →
        compileAll c.broadcast.cache_patterns = some cp →
        compileAll c.broadcast.exclude_patterns = some ep →
        c.build = some (BuiltPolicy.patternBased
          { cache_patterns := cp
            exclude_patterns := ep
            min_track_priority := c.track.min_priority
            backup_max_age_seconds := c.broadcast.backup_max_age_seconds
            backup_max_count := c.broadcast.backup_max_count
            max_groups_per_track := c.group.max_groups_per_track
            max_frames_per_group := c.group.max_frames_per_group
            max_frame_size_bytes := c.limits.max_frame_size_bytes })) := by
  refine ⟨?_, ?_, ?_⟩
  · intro h
    simp [CachePolicyConfig.build, h]
  · constructor
    · intro h
      cases hen : c.cache_enabled with
      | false => simp [CachePolicyConfig.build, hen] at h
      | true =>
        by_cases hd : c.broadcast.cache_patterns = ["**"] ∧ c.broadcast.exclude_patterns = []
            ∧ c.track.min_priority = 0 ∧ c.broadcast.backup_max_age_seconds = 0
            ∧ c.broadcast.backup_max_count = 0 ∧ c.limits.max_frame_size_bytes = 0
        · exact ⟨rfl, hd⟩
        · exfalso
          simp only [CachePolicyConfig.build, hen, Bool.not_true, Bool.false_eq_true,
            if_false] at h
          rw [if_neg hd] at h
          cases h1 : compileAll c.broadcast.cache_patterns with
          | none =>
            simp [PatternBasedCachePolicy.with_cache_patterns, h1] at h
          | some ps =>
            cases h2 : compileAll c.broadcast.exclude_patterns with
            | none =>
              simp [PatternBasedCachePolicy.with_cache_patterns, h1,
                PatternBasedCachePolicy.with_exclude_patterns, h2] at h
            | some es =>
              simp [PatternBasedCachePolicy.with_cache_patterns, h1,
                PatternBasedCachePolicy.with_exclude_patterns, h2] at h
    · rintro ⟨hen, hd⟩
      simp [CachePolicyConfig.build, hen, hd]
  · intro h hd hcp hep
    simp only [CachePolicyConfig.build, h, Bool.not_true, Bool.false_eq_true, if_false]
    rw [if_neg hd]
    simp [PatternBasedCachePolicy.with_cache_patterns, hcp,
      PatternBasedCachePolicy.with_exclude_patterns, hep,
      PatternBasedCachePolicy.with_min_track_priority,
      PatternBasedCachePolicy.with_backup_max_age,
      PatternBasedCachePolicy.with_backup_max_count,
      PatternBasedCachePolicy.with_max_groups_per_track,
      PatternBasedCachePolicy.with_max_frames_per_group,
      PatternBasedCachePolicy.with_max_frame_size,
      PatternBasedCachePolicy.new, PatternBasedCachePolicy.defaultPolicy]

theorem C3_build_dispatch_witness :
    cfgDisabled.build = some BuiltPolicy.never
    ∧ CachePolicyConfig.defaultConfig.build = some BuiltPolicy.always
    ∧ cfgLive.build = some (BuiltPolicy.patternBased
        { cache_patterns := [pLive]
          exclude_patterns := []
          min_track_priority := 0
          backup_max_age_seconds := 0
          backup_max_count := 0
          max_groups_per_track := 1
          max_frames_per_group := 0
          max_frame_size_bytes := 0 }) := by
  refine ⟨(C3_build_dispatch cfgDisabled [] []).1 rfl,
    (C3_build_dispatch CachePolicyConfig.defaultConfig [] []).2.1.mpr ⟨rfl, by decide⟩, ?_⟩
  exact (C3_build_dispatch cfgLive [pLive] []).2.2 rfl (by decide) (by decide) (by decide)

/-- C9: `build` fails if and only if caching is enabled, the always-cache
shortcut does not apply, and some include or exclude pattern string fails
glob compilation; with caching disabled it succeeds (returning the
never-cache variant) even if the configuration holds malformed patterns,
because the patterns are never compiled. -/
theorem C9_build_errors (c : CachePolicyConfig) :
    (c.build = none ↔
      c.cache_enabled = true
      ∧ ¬(c.broadcast.cache_patterns = ["**"] ∧ c.broadcast.exclude_patterns = []
          ∧ c.track.min_priority = 0 ∧ c.broadcast.backup_max_age_seconds = 0
          ∧ c.broadcast.backup_max_count = 0 ∧ c.limits.max_frame_size_bytes = 0)
      ∧ ((∃ s ∈ c.broadcast.cache_patterns, Pattern.new s = none)
        ∨ (∃ s ∈ c.broadcast.exclude_patterns, Pattern.new s = none)))
    ∧ (c.cache_enabled = false → c.build = some BuiltPolicy.never) := by
  constructor
  · cases hen : c.cache_enabled with
    | false => simp [CachePolicyConfig.build, hen]
    | true =>
      by_cases hd : c.broadcast.cache_patterns = ["**"] ∧ c.broadcast.exclude_patterns = []
          ∧ c.track.min_priority = 0 ∧ c.broadcast.backup_max_age_seconds = 0
          ∧ c.broadcast.backup_max_count = 0 ∧ c.limits.max_frame_size_bytes = 0
      · simp [CachePolicyConfig.build, hen, hd]
      · simp only [CachePolicyConfig.build, hen, Bool.not_true, Bool.false_eq_true, if_false]
        rw [if_neg hd]
        cases h1 : compileAll c.broadcast.cache_patterns with
        | none =>
          simp only [PatternBasedCachePolicy.with_cache_patterns, h1, Option.map_none']
          exact iff_of_true trivial ⟨trivial, hd, Or.inl ((compileAll_eq_none_iff _).mp h1)⟩
        | some ps =>
          cases h2 : compileAll c.broadcast.exclude_patterns with
          | none =>
            simp only [PatternBasedCachePolicy.with_cache_patterns, h1, Option.map_some',
              PatternBasedCachePolicy.with_exclude_patterns, h2, Option.map_none']
            exact iff_of_true trivial ⟨trivial, hd, Or.inr ((compileAll_eq_none_iff _).mp h2)⟩
          | some es =>
            simp only [PatternBasedCachePolicy.with_cache_patterns, h1, Option.map_some',
              PatternBasedCachePolicy.with_exclude_patterns, h2, Option.map_none']
            refine iff_of_false (by simp) ?_
            rintro ⟨-, -, hfail | hfail⟩
            · exact (Option.some_ne_none ps) (h1 ▸ (compileAll_eq_none_iff _).mpr hfail)
            · exact (Option.some_ne_none es) (h2 ▸ (compileAll_eq_none_iff _).mpr hfail)
  · intro h
    simp [CachePolicyConfig.build, h]

theorem C9_build_errors_witness :
    cfgBadDisabled.build = some BuiltPolicy.never ∧ cfgBadEnabled.build = none :=
  ⟨(C9_build_errors cfgBadDisabled).2 rfl,
   (C9_build_errors cfgBadEnabled).1.mpr (by decide)⟩

theorem queryEquiv_refl (a : BuiltPolicy) : queryEquiv a a := by
  intro path track_name priority sequence estimated_size frame_size age_seconds backup_count
  exact ⟨rfl, rfl, rfl, rfl, rfl⟩

theorem queryEquiv_patternBased (p q : PatternBasedCachePolicy)
    (h1 : p.cache_patterns = q.cache_patterns)
    (h2 : p.exclude_patterns = q.exclude_patterns)
    (h3 : p.min_track_priority = q.min_track_priority)
    (h4 : p.backup_max_age_seconds = q.backup_max_age_seconds)
    (h5 : p.backup_max_count = q.backup_max_count)
    (h6 : p.max_frame_size_bytes = q.max_frame_size_bytes) :
    queryEquiv (BuiltPolicy.patternBased p) (BuiltPolicy.patternBased q) := by
  intro path track_name priority sequence estimated_size frame_size age_seconds backup_count
  have hbc : p.should_cache_broadcast path = q.should_cache_broadcast path := by
    simp only [PatternBasedCachePolicy.should_cache_broadcast, matches_patterns, h1, h2]
  refine ⟨hbc, ?_, ?_, ?_, ?_⟩
  · simp only [BuiltPolicy.should_cache_track, PatternBasedCachePolicy.should_cache_track,
      hbc, h3]
  · simp only [BuiltPolicy.should_cache_group, PatternBasedCachePolicy.should_cache_group, h6]
  · simp only [BuiltPolicy.should_cache_frame, PatternBasedCachePolicy.should_cache_frame, h6]
  · simp only [BuiltPolicy.should_keep_backup, PatternBasedCachePolicy.should_keep_backup,
      h4, h5]

/-- C10: noninterference of informational configuration fields — two
configurations that agree on everything except `max_tracks_per_broadcast`,
`max_groups_per_track`, `max_frames_per_group`, `max_cache_size_bytes` and
`max_broadcast_size_bytes` build observationally equivalent policies (both
fail, or both succeed answering every query identically on every input). -/
theorem C10_informational_noninterference (c1 c2 : CachePolicyConfig)
    (he : c1.cache_enabled = c2.cache_enabled)
    (hb : c1.broadcast = c2.broadcast)
    (hp : c1.track.min_priority = c2.track.min_priority)
    (hf : c1.limits.max_frame_size_bytes = c2.limits.max_frame_size_bytes) :
    buildEquiv c1.build c2.build := by
  simp only [CachePolicyConfig.build, he, hb, hp, hf]
  cases hce : c2.cache_enabled with
  | false =>
    simp only [Bool.not_false, if_true]
    exact queryEquiv_refl BuiltPolicy.never
  | true =>
    simp only [Bool.not_true, Bool.false_eq_true, if_false]
    by_cases hd : c2.broadcast.cache_patterns = ["**"] ∧ c2.broadcast.exclude_patterns = []
        ∧ c2.track.min_priority = 0 ∧ c2.broadcast.backup_max_age_seconds = 0
        ∧ c2.broadcast.backup_max_count = 0 ∧ c2.limits.max_frame_size_bytes = 0
    · rw [if_pos hd, if_pos hd]
      exact queryEquiv_refl BuiltPolicy.always
    · rw [if_neg hd, if_neg hd]
      cases h1 : compileAll c2.broadcast.cache_patterns with
      | none =>
        simp only [PatternBasedCachePolicy.with_cache_patterns, h1, Option.map_none']
        trivial
      | some ps =>
        cases h2 : compileAll c2.broadcast.exclude_patterns with
        | none =>
          simp only [PatternBasedCachePolicy.with_cache_patterns, h1, Option.map_some',
            PatternBasedCachePolicy.with_exclude_patterns, h2, Option.map_none']
          trivial
        | some es =>
          simp only [PatternBasedCachePolicy.with_cache_patterns, h1, Option.map_some',
            PatternBasedCachePolicy.with_exclude_patterns, h2]
          exact queryEquiv_patternBased _ _ rfl rfl rfl rfl rfl rfl

theorem C10_informational_noninterference_witness :
    buildEquiv cfgInfo.build CachePolicyConfig.defaultConfig.build :=
  C10_informational_noninterference cfgInfo CachePolicyConfig.defaultConfig rfl rfl rfl rfl

/-- C3 counterexample: an enabled configuration that is not the default
shortcut (its single include pattern is the malformed `"["`) does not build
the pattern-based variant — `build` returns the pattern-compilation error
instead, so the unconditional "in every other enabled case it constructs the
pattern-based variant" reading fails. -/
theorem C3_build_dispatch_counterexample :
    cfgBadEnabled.cache_enabled = true
    ∧ ¬(cfgBadEnabled.broadcast.cache_patterns = ["**"]
        ∧ cfgBadEnabled.broadcast.exclude_patterns = []
        ∧ cfgBadEnabled.track.min_priority = 0
        ∧ cfgBadEnabled.broadcast.backup_max_age_seconds = 0
        ∧ cfgBadEnabled.broadcast.backup_max_count = 0
        ∧ cfgBadEnabled.limits.max_frame_size_bytes = 0)
    ∧ cfgBadEnabled.build = none := by
  decide

end Moq
